import Mathlib

/-!
Shallow embedding of `src/test-e2e.config.mjs` from the telefunc repository.
The module exports a static CI configuration (`ci.jobs` produced by
`getCiJobs()`) and a log-tolerance predicate `tolerateError`.
-/

/-- A CI setup, i.e. one `{ os, node_version }` object of the config file. -/
structure Setup where
  os : String
  node_version : String
deriving DecidableEq, Repr

/-- A CI job: a `{ name, setups }` object of the config file. -/
structure Job where
  name : String
  setups : List Setup
deriving DecidableEq, Repr

/-- The local constant `ubuntu18` of `getCiJobs`. -/
def ubuntu18 : Setup := ⟨"ubuntu-latest", "18"⟩

/-- The local constant `ubuntu16` of `getCiJobs`. -/
def ubuntu16 : Setup := ⟨"ubuntu-latest", "16"⟩

/-- The local constant `ubuntu17` of `getCiJobs`. -/
def ubuntu17 : Setup := ⟨"ubuntu-latest", "17"⟩

/-- The local constant `win14` of `getCiJobs`. -/
def win14 : Setup := ⟨"windows-latest", "14"⟩

/-- The local constant `win18` of `getCiJobs`. -/
def win18 : Setup := ⟨"windows-latest", "18"⟩

/-- The local constant `mac17` of `getCiJobs`. -/
def mac17 : Setup := ⟨"macos-latest", "17"⟩

/-- The function `getCiJobs` of the config file. It takes no argument in the
source, which we render as a `Unit` parameter, and returns the literal job
list of the source file. -/
def getCiJobs (_u : Unit) : List Job :=
  [ ⟨"Vite", [ubuntu18, win14, mac17]⟩
  , ⟨"React Native", [ubuntu16]⟩
  , ⟨"Cloudflare Workers", [ubuntu17]⟩
  , ⟨"Next.js", [ubuntu16, win14]⟩
  , ⟨"Nuxt 2", [ubuntu16, win14]⟩
  , ⟨"SvelteKit", [ubuntu16, win18]⟩
  , ⟨"Prisma", [win14, mac17]⟩
  , ⟨"https://telefunc.com", [ubuntu18]⟩ ]

/-- checks whether the pattern (first argument) occurs at the head of the
text (second argument); helper for `charsContain`. -/
def charsStart : List Char → List Char → Bool
  | [], _ => true
  | _ :: _, [] => false
  | p :: ps, c :: cs => p == c && charsStart ps cs

/-- checks whether the pattern occurs anywhere in the text, scanning every
suffix; helper for `strContains`. -/
def charsContain (pat : List Char) : List Char → Bool
  | [] => charsStart pat []
  | c :: cs => charsStart pat (c :: cs) || charsContain pat cs

/-- Embedding of JavaScript `s.includes(pat)`: substring containment. -/
def strContains (s pat : String) : Bool :=
  charsContain pat.data s.data

/-- The argument of `tolerateError`: a log-line object. The source
destructures only the `logSource` and `logText` fields; `extra` models any
further fields the JavaScript object may carry. -/
structure LogEntry where
  logSource : String
  logText : String
  extra : List (String × String)
deriving DecidableEq

/-- The string literal of `isRollupEmptyChunkWarning`. -/
def rollupWarningText : String := "Generated an empty chunk: \"hooks\""

/-- The string literal of `isSveltekitTypesGenWarning`. -/
def sveltekitWarningText : String :=
  "Cannot find base config file \"./.svelte-kit/tsconfig.json\""

/-- The function `tolerateError` of the config file: it tolerates a log line
exactly when it is the Rollup empty-chunk warning or the SvelteKit
types-generation warning on stderr. -/
def tolerateError (e : LogEntry) : Bool :=
  let isRollupEmptyChunkWarning : Bool :=
    e.logSource == "stderr" && strContains e.logText rollupWarningText
  let isSveltekitTypesGenWarning : Bool :=
    e.logSource == "stderr" && strContains e.logText sveltekitWarningText
  isRollupEmptyChunkWarning || isSveltekitTypesGenWarning

/-- The `ci` field of the default export. -/
structure CiConfig where
  jobs : List Job
deriving DecidableEq

/-- The shape of the module's default export. -/
structure ModuleExport where
  ci : CiConfig
  tolerateError : LogEntry → Bool

/-- The default export of `src/test-e2e.config.mjs`. -/
def defaultExport : ModuleExport :=
  ⟨⟨getCiJobs ()⟩, tolerateError⟩

/-- C1 counterexample: the claim fails for the framework "Nuxt" of the
spec's list — no job returned by `getCiJobs` has name equal to "Nuxt"
(the job is named "Nuxt 2"). -/
theorem no_job_named_Nuxt : ¬ ∃ j ∈ getCiJobs (), j.name = "Nuxt" := by
  decide

/-- C1 (amended): for every framework named in the spec's list — Vite,
Next.js, Nuxt, SvelteKit — the job matrix returned by `getCiJobs` contains
a job whose name starts with that framework's name. -/
theorem ciJobs_include_spec_frameworks :
    (["Vite", "Next.js", "Nuxt", "SvelteKit"].all fun f =>
      (getCiJobs ()).any fun j => charsStart f.data j.name.data) = true := by
  decide

/-- C2: `tolerateError` returns true exactly when `logSource` is "stderr"
and `logText` contains one of the two tolerated warning substrings. -/
theorem tolerateError_characterization (e : LogEntry) :
    tolerateError e = true ↔
      e.logSource = "stderr" ∧
        (strContains e.logText rollupWarningText = true ∨
          strContains e.logText sveltekitWarningText = true) := by
  simp only [tolerateError, Bool.or_eq_true, Bool.and_eq_true, beq_iff_eq]
  tauto

/-- C3: the CI configuration is static — `getCiJobs` returns the same list
on any two evaluations, and the default export's `ci.jobs` field is that
fixed list. -/
theorem ciJobs_static :
    (∀ a b : Unit, getCiJobs a = getCiJobs b) ∧
      defaultExport.ci.jobs = getCiJobs () :=
  ⟨fun a b => by cases a; cases b; rfl, rfl⟩

/-- C4: `tolerateError` is total on log entries — it always returns a
boolean, either `true` or `false`. -/
theorem tolerateError_total (e : LogEntry) :
    tolerateError e = true ∨ tolerateError e = false := by
  cases h : tolerateError e
  · exact Or.inr rfl
  · exact Or.inl rfl

/-- C5: every job of `getCiJobs` has a non-empty name and a non-empty setup
list, and every setup has an `os` among the three GitHub runners and a
`node_version` among "14", "16", "17", "18". -/
theorem ciJobs_wellFormed :
    ((getCiJobs ()).all fun j =>
      j.name != "" && !j.setups.isEmpty &&
        (j.setups.all fun s =>
          (s.os == "ubuntu-latest" || s.os == "windows-latest" ||
            s.os == "macos-latest") &&
          (s.node_version == "14" || s.node_version == "16" ||
            s.node_version == "17" || s.node_version == "18"))) = true := by
  decide

/-- C6: `tolerateError` depends only on the `logSource` and `logText`
fields of its argument — two entries agreeing on those fields get the same
verdict, whatever their other fields. -/
theorem tolerateError_field_extensional (a b : LogEntry)
    (hs : a.logSource = b.logSource) (ht : a.logText = b.logText) :
    tolerateError a = tolerateError b := by
  simp only [tolerateError, hs, ht]

/-- Witness for C6 at concrete entries differing only in the extra
fields. -/
theorem tolerateError_field_extensional_witness :
    tolerateError ⟨"stderr", "some text", [("pid", "7")]⟩ =
      tolerateError ⟨"stderr", "some text", []⟩ :=
  tolerateError_field_extensional ⟨"stderr", "some text", [("pid", "7")]⟩
    ⟨"stderr", "some text", []⟩ rfl rfl

/-- C7: `getCiJobs` returns exactly 8 jobs with pairwise distinct names in
the fixed source order. -/
theorem ciJobs_names_exact :
    (getCiJobs ()).map Job.name =
        ["Vite", "React Native", "Cloudflare Workers", "Next.js", "Nuxt 2",
          "SvelteKit", "Prisma", "https://telefunc.com"] ∧
      ((getCiJobs ()).map Job.name).Nodup ∧ (getCiJobs ()).length = 8 := by
  refine ⟨rfl, ?_, rfl⟩
  decide

/-- C8: the module's entire runtime content is static data plus a pure
predicate — the default export's `ci.jobs` field is the fixed literal job
list, and its `tolerateError` field is pointwise the pure stderr-warning
predicate. -/
theorem module_runtime_is_static_data :
    defaultExport.ci.jobs =
        [ ⟨"Vite", [ubuntu18, win14, mac17]⟩
        , ⟨"React Native", [ubuntu16]⟩
        , ⟨"Cloudflare Workers", [ubuntu17]⟩
        , ⟨"Next.js", [ubuntu16, win14]⟩
        , ⟨"Nuxt 2", [ubuntu16, win14]⟩
        , ⟨"SvelteKit", [ubuntu16, win18]⟩
        , ⟨"Prisma", [win14, mac17]⟩
        , ⟨"https://telefunc.com", [ubuntu18]⟩ ] ∧
      ∀ e : LogEntry,
        defaultExport.tolerateError e =
          ((e.logSource == "stderr" && strContains e.logText rollupWarningText)
            || (e.logSource == "stderr" &&
              strContains e.logText sveltekitWarningText)) :=
  ⟨rfl, fun _ => rfl⟩
